import Mathlib

/-!
Verification of `src/explorer/src/components/MixNodes/index.ts`.

The file embeds the two exported functions, `mixnodeToGridRow` and
`mixNodeResponseItemToMixnodeRowType`, together with the JavaScript value
semantics they rely on (`Number(string)` coercion, truthy `||` fallbacks,
`toFixed(2)`, template-literal stringification, IEEE division including
`0/0 = NaN`).

JavaScript numbers are modelled by `JSNum`: `NaN`, the two infinities, and
finite values as exact rationals.  Every finite IEEE-754 double has a
terminating decimal expansion and is an exact rational, so the rationals
cover all double values that can occur; rational arithmetic is exact where
double arithmetic rounds, which does not affect any of the concrete values
used below.  There is no separate negative zero: `-0` is identified with
`0` (both are falsy and behave identically in every operation this code
performs).
-/

inductive JSNum where
  | nan
  | inf
  | ninf
  | fin (q : ℚ)
deriving DecidableEq

/-- JavaScript truthiness of a number: `NaN` and `0` are the falsy numbers. -/
def JSNum.truthy : JSNum → Bool
  | .nan => false
  | .fin q => if q = 0 then false else true
  | .inf => true
  | .ninf => true

/-- IEEE addition on JavaScript numbers. -/
def JSNum.add : JSNum → JSNum → JSNum
  | .nan, _ => .nan
  | _, .nan => .nan
  | .inf, .ninf => .nan
  | .ninf, .inf => .nan
  | .inf, _ => .inf
  | _, .inf => .inf
  | .ninf, _ => .ninf
  | _, .ninf => .ninf
  | .fin a, .fin b => .fin (a + b)

/-- IEEE multiplication on JavaScript numbers. -/
def JSNum.mul : JSNum → JSNum → JSNum
  | .nan, _ => .nan
  | _, .nan => .nan
  | .inf, .inf => .inf
  | .inf, .ninf => .ninf
  | .ninf, .inf => .ninf
  | .ninf, .ninf => .inf
  | .inf, .fin q => if q = 0 then .nan else if 0 < q then .inf else .ninf
  | .fin q, .inf => if q = 0 then .nan else if 0 < q then .inf else .ninf
  | .ninf, .fin q => if q = 0 then .nan else if 0 < q then .ninf else .inf
  | .fin q, .ninf => if q = 0 then .nan else if 0 < q then .ninf else .inf
  | .fin a, .fin b => .fin (a * b)

/-- IEEE division on JavaScript numbers: `0/0` is `NaN`, a non-zero finite
value divided by zero is a signed infinity. -/
def JSNum.div : JSNum → JSNum → JSNum
  | .nan, _ => .nan
  | _, .nan => .nan
  | .inf, .inf => .nan
  | .inf, .ninf => .nan
  | .ninf, .inf => .nan
  | .ninf, .ninf => .nan
  | .inf, .fin q => if q < 0 then .ninf else .inf
  | .ninf, .fin q => if q < 0 then .inf else .ninf
  | .fin _, .inf => .fin 0
  | .fin _, .ninf => .fin 0
  | .fin a, .fin b =>
    if b = 0 then (if a = 0 then .nan else if 0 < a then .inf else .ninf)
    else .fin (a / b)

/-- A JavaScript number is finite when it is neither `NaN` nor an infinity. -/
def JSNum.isFinite : JSNum → Bool
  | .fin _ => true
  | _ => false

/-- Decimal digits of `n`, left-padded with `'0'` to width `k`. -/
def padLeftZeros (k : ℕ) (n : ℕ) : String :=
  let s := toString n
  String.mk (List.replicate (k - s.length) '0') ++ s

/-- Smallest `k ≤ 60` such that `den` divides `10 ^ k`, i.e. the number of
digits after which the decimal expansion of a fraction with denominator
`den` terminates. -/
def terminatingDigits (den : ℕ) : Option ℕ :=
  (List.range 61).find? (fun k => 10 ^ k % den = 0)

/-- Integer part of a nonnegative rational. -/
def ratFloorNat (q : ℚ) : ℕ :=
  q.num.toNat / q.den

/-- Drop trailing `'0'` characters. -/
def stripTrailingZeros (s : String) : String :=
  String.mk ((s.toList.reverse.dropWhile (fun c => c == '0')).reverse)

/-- JavaScript `ToString` applied to a finite number, printing the exact
terminating decimal expansion (every IEEE-754 double has one; a
non-terminating rational, unreachable from doubles, falls back to 60
rounded digits).  Exponential notation for very large or very small
magnitudes is not modelled; no statement below depends on it. -/
def ratDecimalString (q : ℚ) : String :=
  if q = 0 then "0"
  else
    let sgn := if q < 0 then "-" else ""
    let a := |q|
    let k := (terminatingDigits a.den).getD 60
    let n := ratFloorNat (a * 10 ^ k + 1 / 2)
    let ip := n / 10 ^ k
    let fp := n % 10 ^ k
    if fp = 0 then sgn ++ toString ip
    else sgn ++ toString ip ++ "." ++ stripTrailingZeros (padLeftZeros k fp)

/-- JavaScript `ToString` on a number value. -/
def JSNum.toJSString : JSNum → String
  | .nan => "NaN"
  | .inf => "Infinity"
  | .ninf => "-Infinity"
  | .fin q => ratDecimalString q

/-- Template-literal rendering of a possibly missing number: an absent value
prints as `"undefined"`. -/
def jsStringOfOptNum : Option JSNum → String
  | none => "undefined"
  | some v => v.toJSString

/-- JavaScript `Number.prototype.toFixed(2)` (ECMA-262): `NaN` prints
`"NaN"`, the sign is taken first, then the nearest two-decimal value with
ties rounded up; magnitudes of at least `10 ^ 21` fall back to `ToString`. -/
def JSNum.toFixed2 : JSNum → String
  | .nan => "NaN"
  | .inf => "Infinity"
  | .ninf => "-Infinity"
  | .fin q =>
    if 10 ^ 21 ≤ |q| then ratDecimalString q
    else
      let sgn := if q < 0 then "-" else ""
      let n := ratFloorNat (|q| * 100 + 1 / 2)
      sgn ++ toString (n / 100) ++ "." ++ padLeftZeros 2 (n % 100)

/-- The whitespace characters stripped by JavaScript `Number(string)`. -/
def isJsWhitespace (c : Char) : Bool :=
  c == ' ' || c == '\t' || c == '\n' || c == '\r' || c == '\x0b' || c == '\x0c'

/-- Strip leading and trailing whitespace. -/
def trimWS (cs : List Char) : List Char :=
  ((cs.dropWhile isJsWhitespace).reverse.dropWhile isJsWhitespace).reverse

/-- Numeric value of a decimal digit character. -/
def digitVal (c : Char) : ℕ := c.toNat - '0'.toNat

/-- Value of the digits of an unsigned decimal numeral. -/
def digitsToNat (cs : List Char) : ℕ :=
  cs.foldl (fun a c => a * 10 + digitVal c) 0

/-- Value of a hexadecimal digit character, `none` for any other character. -/
def hexDigitVal (c : Char) : Option ℕ :=
  if c.isDigit then some (c.toNat - '0'.toNat)
  else if 'a' ≤ c ∧ c ≤ 'f' then some (c.toNat - 'a'.toNat + 10)
  else if 'A' ≤ c ∧ c ≤ 'F' then some (c.toNat - 'A'.toNat + 10)
  else none

/-- Value of a `0x` / `0o` / `0b` numeral body in radix `b`; `NaN` when empty
or containing an out-of-range digit. -/
def parseRadix (b : ℕ) (cs : List Char) : JSNum :=
  if cs = [] then .nan
  else if cs.all (fun c => match hexDigitVal c with | some n => decide (n < b) | none => false) then
    .fin ((cs.foldl (fun a c => a * b + ((hexDigitVal c).getD 0)) 0 : ℕ) : ℚ)
  else .nan

/-- Exact rational value of an unsigned JavaScript decimal literal
`digits [. digits] [(e|E) [sign] digits]`; `none` when malformed. -/
def parseUnsignedDec (cs : List Char) : Option ℚ :=
  let (mant, expPart) :=
    match cs.findIdx? (fun c => c == 'e' || c == 'E') with
    | none => (cs, none)
    | some i => (cs.take i, some (cs.drop (i + 1)))
  let (ip, fp) :=
    match mant.findIdx? (fun c => c == '.') with
    | none => (mant, ([] : List Char))
    | some i => (mant.take i, mant.drop (i + 1))
  if ip.all Char.isDigit ∧ fp.all Char.isDigit ∧ (ip ≠ [] ∨ fp ≠ []) then
    let mantQ : ℚ := (digitsToNat ip : ℚ) + (digitsToNat fp : ℚ) / 10 ^ fp.length
    match expPart with
    | none => some mantQ
    | some ecs =>
      let (eneg, eds) :=
        match ecs with
        | '+' :: r => (false, r)
        | '-' :: r => (true, r)
        | r => (false, r)
      if eds ≠ [] ∧ eds.all Char.isDigit then
        some (if eneg then mantQ / 10 ^ digitsToNat eds else mantQ * 10 ^ digitsToNat eds)
      else none
  else none

/-- JavaScript `Number(string)` coercion: the trimmed empty string is `0`;
hexadecimal, octal and binary prefixed numerals (sign not allowed); an
optional sign followed by `"Infinity"` or a decimal literal; anything else
is `NaN`.  Decimal values are kept exact instead of being rounded to the
nearest double. -/
def jsNumber (s : String) : JSNum :=
  match trimWS s.toList with
  | [] => .fin 0
  | '0' :: 'x' :: r => parseRadix 16 r
  | '0' :: 'X' :: r => parseRadix 16 r
  | '0' :: 'o' :: r => parseRadix 8 r
  | '0' :: 'O' :: r => parseRadix 8 r
  | '0' :: 'b' :: r => parseRadix 2 r
  | '0' :: 'B' :: r => parseRadix 2 r
  | cs =>
    let (neg, rest) :=
      match cs with
      | '+' :: r => (false, r)
      | '-' :: r => (true, r)
      | r => (false, r)
    if rest = "Infinity".toList then (if neg then .ninf else .inf)
    else
      match parseUnsignedDec rest with
      | some q => .fin (if neg then -q else q)
      | none => .nan

/-- `v || d` on JavaScript numbers. -/
def jsOrNum (v d : JSNum) : JSNum :=
  if v.truthy then v else d

/-- `v || d` where the number may be absent (`undefined` is falsy). -/
def jsOrNumOpt (o : Option JSNum) (d : JSNum) : JSNum :=
  match o with
  | none => d
  | some v => jsOrNum v d

/-- `v || ''` on an optional string field: `undefined` and the empty string
both fall through to `''`. -/
def jsOrEmptyStr : Option String → String
  | none => ""
  | some s => if s = "" then "" else s

/-- `s || d` on strings: the empty string is the only falsy string. -/
def jsOrStr (s d : String) : String :=
  if s = "" then d else s

/-- A JavaScript number-or-string union value, as produced by
`item.stake_saturation || ''`. -/
inductive NumOrStr where
  | num (v : JSNum)
  | str (s : String)

/-- `item.stake_saturation || ''`: a falsy or absent number is replaced by
the empty string before the `typeof` test. -/
def stakeSatOrEmpty : Option JSNum → NumOrStr
  | none => .str ""
  | some v => if v.truthy then .num v else .str ""

/-- `a || []` on an optional array: every array object is truthy, only an
absent array falls through to `[]`. -/
def jsOrNilList {α : Type} (o : Option (List α)) : List α :=
  match o with
  | none => []
  | some l => l

/-- Modelled from the spec: the nested `mix_node` object of
`MixNodeResponseItem` is declared in the repository's
`typeDefs/explorer-api` module, which is not under `src/`; §3 of the spec
describes it as carrying an identity key, a host and a profit-margin
percentage.  Fields the source reads through `|| ''` or `|| 0` fallbacks
are modelled as optional. -/
structure MixNodeInfo where
  identity_key : Option String
  host : Option String
  profit_margin_percent : Option JSNum

/-- Modelled from the spec: the optional location object (country name) of
a response item; the declaring `typeDefs/explorer-api` module is not under
`src/`. -/
structure NodeLocation where
  country_name : Option String

/-- Modelled from the spec: a coin amount whose `amount` is a numeric
string; the declaring `typeDefs/explorer-api` module is not under `src/`. -/
structure CoinAmount where
  amount : String

/-- Modelled from the spec: `MixNodeResponseItem` from the repository's
`typeDefs/explorer-api` module, which is not under `src/`.  Per §3 of the
spec it carries an owner identifier, a status value, the nested node-info
object, pledge and total-delegation amounts as numeric strings, an optional
location, a layer identifier, an average-uptime number and an optional
stake-saturation ratio.  The status enumeration is opaque to this code and
is modelled as a string. -/
structure MixNodeResponseItem where
  owner : String
  status : String
  mix_node : MixNodeInfo
  pledge_amount : CoinAmount
  total_delegation : CoinAmount
  location : Option NodeLocation
  layer : Option String
  avg_uptime : Option JSNum
  stake_saturation : Option JSNum

/-- The flattened grid row type `MixnodeRowType` from the source. -/
structure MixnodeRowType where
  id : String
  status : String
  owner : String
  location : String
  identity_key : String
  bond : JSNum
  self_percentage : String
  host : String
  layer : String
  profit_percentage : String
  avg_uptime : String
  stake_saturation : String

/-- `mixNodeResponseItemToMixnodeRowType` from the source, line for line. -/
def mixNodeResponseItemToMixnodeRowType (item : MixNodeResponseItem) : MixnodeRowType :=
  let pledge := jsOrNum (jsNumber item.pledge_amount.amount) (.fin 0)
  let delegations := jsOrNum (jsNumber item.total_delegation.amount) (.fin 0)
  let totalBond := pledge.add delegations
  let selfPercentage := ((pledge.mul (.fin 100)).div totalBond).toFixed2
  let profitPercentage := jsOrNumOpt item.mix_node.profit_margin_percent (.fin 0)
  let stakeSaturation := stakeSatOrEmpty item.stake_saturation
  { id := item.owner
    status := item.status
    owner := item.owner
    identity_key := jsOrEmptyStr item.mix_node.identity_key
    bond := jsOrNum totalBond (.fin 0)
    location := jsOrEmptyStr (item.location.bind NodeLocation.country_name)
    self_percentage := selfPercentage
    host := jsOrEmptyStr item.mix_node.host
    layer := jsOrEmptyStr item.layer
    profit_percentage := profitPercentage.toJSString ++ "%"
    avg_uptime := jsOrStr (jsStringOfOptNum item.avg_uptime ++ "%") "-"
    stake_saturation :=
      match stakeSaturation with
      | .num v => (v.mul (.fin 100)).toFixed2 ++ " %"
      | .str _ => "-" }

/-- `mixnodeToGridRow` from the source:
`(arrayOfMixnodes || []).map(mixNodeResponseItemToMixnodeRowType)`. -/
def mixnodeToGridRow (arrayOfMixnodes : Option (List MixNodeResponseItem)) : List MixnodeRowType :=
  (jsOrNilList arrayOfMixnodes).map mixNodeResponseItemToMixnodeRowType

/-- A fully populated, well-formed response item used as the base of the
concrete instances below. -/
def baseItem : MixNodeResponseItem :=
  { owner := "n1owner"
    status := "active"
    mix_node :=
      { identity_key := some "idkey"
        host := some "1.2.3.4"
        profit_margin_percent := some (.fin 10) }
    pledge_amount := { amount := "600" }
    total_delegation := { amount := "400" }
    location := some { country_name := some "Germany" }
    layer := some "1"
    avg_uptime := some (.fin 98)
    stake_saturation := some (.fin (8552 / 10000)) }

/-- A copy of `baseItem` whose pledge amount string is "Infinity". -/
def infinitePledgeItem : MixNodeResponseItem :=
  { baseItem with pledge_amount := ⟨"Infinity"⟩ }

/-- A copy of `baseItem` whose two amount strings are not numeric. -/
def nanAmountsItem : MixNodeResponseItem :=
  { baseItem with pledge_amount := ⟨"xyz"⟩, total_delegation := ⟨"qq"⟩ }

/-- A copy of `baseItem` whose two amount strings are "0". -/
def zeroAmountsItem : MixNodeResponseItem :=
  { baseItem with pledge_amount := ⟨"0"⟩, total_delegation := ⟨"0"⟩ }

/-- A copy of `baseItem` whose raw stake saturation is the number 0. -/
def zeroSaturationItem : MixNodeResponseItem :=
  { baseItem with stake_saturation := some (JSNum.fin 0) }

set_option maxRecDepth 10000

lemma jsOrNum_zero_eq (x : JSNum) :
    jsOrNum x (JSNum.fin 0) = if x = JSNum.nan then JSNum.fin 0 else x := by
  cases x with
  | nan => rfl
  | inf => rfl
  | ninf => rfl
  | fin q => by_cases hq : q = 0 <;> simp [jsOrNum, JSNum.truthy, hq]

lemma append_percent_ne (s : String) : (s ++ "%") ≠ "" ∧ (s ++ "%") ≠ "-" := by
  have hp : ("%" : String).data = ['%'] := rfl
  have hm : ("-" : String).data = ['-'] := rfl
  have he : ("" : String).data = [] := rfl
  constructor <;> intro h <;> have hd := congrArg String.data h <;>
    rw [String.data_append, hp] at hd
  · rw [he] at hd
    exact absurd (congrArg List.length hd) (by simp)
  · rw [hm] at hd
    rcases hs : s.data with _ | ⟨a, t⟩ <;> rw [hs] at hd
    · exact absurd hd (by decide)
    · simp at hd

/-- C1: `mixnodeToGridRow` maps every input sequence to a row sequence of the
same length, in the same order, the i-th row being the image of the i-th
input record under the per-item mapper alone (no cross-record state). -/
theorem mixnodeToGridRow_length_and_pointwise (l : List MixNodeResponseItem) :
    (mixnodeToGridRow (some l)).length = l.length ∧
    ∀ i : ℕ, (mixnodeToGridRow (some l))[i]? =
      (l[i]?).map mixNodeResponseItemToMixnodeRowType := by
  constructor
  · simp [mixnodeToGridRow, jsOrNilList]
  · intro i
    simp [mixnodeToGridRow, jsOrNilList]

/-- C2: an absent input array maps to the concrete empty row sequence. -/
theorem mixnodeToGridRow_none_eq_nil :
    mixnodeToGridRow none = ([] : List MixnodeRowType) := rfl

/-- C3: the mapper is a total function (by construction in this embedding),
and every degenerate input degrades to its default: non-numeric amount
strings give bond 0, missing optional string fields give "", a missing
stake saturation gives "-", a missing profit margin renders as "0%". -/
theorem mixNodeRow_degenerate_defaults (item : MixNodeResponseItem) (s t : String)
    (hs : jsNumber s = JSNum.nan) (ht : jsNumber t = JSNum.nan) :
    (mixNodeResponseItemToMixnodeRowType
        { item with pledge_amount := ⟨s⟩, total_delegation := ⟨t⟩ }).bond = JSNum.fin 0 ∧
    (mixNodeResponseItemToMixnodeRowType { item with location := none }).location = "" ∧
    (mixNodeResponseItemToMixnodeRowType
        { item with mix_node := { item.mix_node with identity_key := none } }).identity_key = "" ∧
    (mixNodeResponseItemToMixnodeRowType
        { item with mix_node := { item.mix_node with host := none } }).host = "" ∧
    (mixNodeResponseItemToMixnodeRowType { item with layer := none }).layer = "" ∧
    (mixNodeResponseItemToMixnodeRowType
        { item with stake_saturation := none }).stake_saturation = "-" ∧
    (mixNodeResponseItemToMixnodeRowType
        { item with mix_node := { item.mix_node with profit_margin_percent := none } }).profit_percentage = "0%" := by
  refine ⟨?_, rfl, rfl, rfl, rfl, rfl, by with_unfolding_all rfl⟩
  show jsOrNum ((jsOrNum (jsNumber s) (JSNum.fin 0)).add
      (jsOrNum (jsNumber t) (JSNum.fin 0))) (JSNum.fin 0) = JSNum.fin 0
  rw [hs, ht]
  with_unfolding_all rfl

/-- Witness for C3 at a concrete record whose amount strings are not
numeric and whose optional fields are exercised. -/
theorem mixNodeRow_degenerate_defaults_witness :
    jsNumber "xyz" = JSNum.nan ∧ jsNumber "qq" = JSNum.nan ∧
    ((mixNodeResponseItemToMixnodeRowType
        { baseItem with pledge_amount := ⟨"xyz"⟩, total_delegation := ⟨"qq"⟩ }).bond = JSNum.fin 0 ∧
     (mixNodeResponseItemToMixnodeRowType { baseItem with location := none }).location = "" ∧
     (mixNodeResponseItemToMixnodeRowType
        { baseItem with mix_node := { baseItem.mix_node with identity_key := none } }).identity_key = "" ∧
     (mixNodeResponseItemToMixnodeRowType
        { baseItem with mix_node := { baseItem.mix_node with host := none } }).host = "" ∧
     (mixNodeResponseItemToMixnodeRowType { baseItem with layer := none }).layer = "" ∧
     (mixNodeResponseItemToMixnodeRowType
        { baseItem with stake_saturation := none }).stake_saturation = "-" ∧
     (mixNodeResponseItemToMixnodeRowType
        { baseItem with mix_node := { baseItem.mix_node with profit_margin_percent := none } }).profit_percentage = "0%") :=
  ⟨by with_unfolding_all rfl, by with_unfolding_all rfl,
   mixNodeRow_degenerate_defaults baseItem "xyz" "qq"
     (by with_unfolding_all rfl) (by with_unfolding_all rfl)⟩

/-- C4 counterexample: with pledge "Infinity" and delegation "400" the sum of
the parsed amounts is the non-finite value +Infinity, yet the bond field is
+Infinity rather than 0, so "whenever that sum is not a finite number the
bond field is 0" fails. -/
theorem bond_infinite_sum_counterexample :
    ((jsOrNum (jsNumber "Infinity") (JSNum.fin 0)).add
        (jsOrNum (jsNumber "400") (JSNum.fin 0))).isFinite = false ∧
    (mixNodeResponseItemToMixnodeRowType infinitePledgeItem).bond = JSNum.inf ∧
    JSNum.inf ≠ JSNum.fin 0 := by
  refine ⟨by with_unfolding_all rfl, by with_unfolding_all rfl, by decide⟩

/-- C4 (amended): each amount string is converted with fallback 0 when
parsing yields NaN, and the bond field equals the sum of the two converted
amounts except when that sum is itself NaN, in which case it is 0 (an
infinite sum passes through unchanged). -/
theorem bond_eq_sum_or_zero (item : MixNodeResponseItem) :
    (jsNumber item.pledge_amount.amount = JSNum.nan →
      jsOrNum (jsNumber item.pledge_amount.amount) (JSNum.fin 0) = JSNum.fin 0) ∧
    (jsNumber item.total_delegation.amount = JSNum.nan →
      jsOrNum (jsNumber item.total_delegation.amount) (JSNum.fin 0) = JSNum.fin 0) ∧
    (mixNodeResponseItemToMixnodeRowType item).bond =
      (if ((jsOrNum (jsNumber item.pledge_amount.amount) (JSNum.fin 0)).add
            (jsOrNum (jsNumber item.total_delegation.amount) (JSNum.fin 0))) = JSNum.nan
        then JSNum.fin 0
        else ((jsOrNum (jsNumber item.pledge_amount.amount) (JSNum.fin 0)).add
            (jsOrNum (jsNumber item.total_delegation.amount) (JSNum.fin 0)))) := by
  refine ⟨fun h => by rw [h]; rfl, fun h => by rw [h]; rfl, ?_⟩
  show jsOrNum ((jsOrNum (jsNumber item.pledge_amount.amount) (JSNum.fin 0)).add
      (jsOrNum (jsNumber item.total_delegation.amount) (JSNum.fin 0))) (JSNum.fin 0) = _
  exact jsOrNum_zero_eq _

/-- Witness for C4 (amended) at a record with two non-numeric amounts. -/
theorem bond_eq_sum_or_zero_witness :
    jsOrNum (jsNumber "xyz") (JSNum.fin 0) = JSNum.fin 0 ∧
    jsOrNum (jsNumber "qq") (JSNum.fin 0) = JSNum.fin 0 ∧
    (mixNodeResponseItemToMixnodeRowType nanAmountsItem).bond = JSNum.fin 0 :=
  ⟨(bond_eq_sum_or_zero nanAmountsItem).1 (by with_unfolding_all rfl),
   (bond_eq_sum_or_zero nanAmountsItem).2.1 (by with_unfolding_all rfl),
   ((bond_eq_sum_or_zero nanAmountsItem).2.2).trans (by with_unfolding_all rfl)⟩

/-- C5: pledge "600" and delegation "400" give bond 1000 and
self_percentage "60.00". -/
theorem bond_and_self_percentage_600_400 :
    (mixNodeResponseItemToMixnodeRowType baseItem).bond = JSNum.fin 1000 ∧
    (mixNodeResponseItemToMixnodeRowType baseItem).self_percentage = "60.00" := by
  exact ⟨by with_unfolding_all rfl, by with_unfolding_all rfl⟩

/-- C6 counterexample: a raw stake saturation equal to the number 0 is
numeric, yet the row shows "-" instead of the two-decimal percentage
"0.00 %" that the claim requires for numeric values. -/
theorem stake_saturation_numeric_zero_counterexample :
    (mixNodeResponseItemToMixnodeRowType zeroSaturationItem).stake_saturation = "-" ∧
    ((JSNum.fin 0).mul (JSNum.fin 100)).toFixed2 ++ " %" = "0.00 %" ∧
    (mixNodeResponseItemToMixnodeRowType zeroSaturationItem).stake_saturation ≠ "0.00 %" :=
  ⟨by with_unfolding_all rfl, by with_unfolding_all rfl, by with_unfolding_all decide⟩

/-- C6 (amended): a truthy numeric stake saturation (neither 0 nor NaN) is
rendered as the value times 100 formatted to two decimals with " %"
appended (leading space); an absent, zero or NaN value renders as the
literal "-".  In particular 0.8552 renders as "85.52 %". -/
theorem stake_saturation_format (item : MixNodeResponseItem) :
    (mixNodeResponseItemToMixnodeRowType item).stake_saturation =
      (match item.stake_saturation with
        | some v =>
          if v.truthy then (v.mul (JSNum.fin 100)).toFixed2 ++ " %" else "-"
        | none => "-") ∧
    (mixNodeResponseItemToMixnodeRowType
        { item with stake_saturation := some (JSNum.fin (8552 / 10000)) }).stake_saturation = "85.52 %" := by
  constructor
  · rcases h : item.stake_saturation with _ | v
    · simp [mixNodeResponseItemToMixnodeRowType, stakeSatOrEmpty, h]
    · by_cases hv : v.truthy <;>
        simp [mixNodeResponseItemToMixnodeRowType, stakeSatOrEmpty, h, hv]
  · with_unfolding_all rfl

/-- C7: the avg_uptime field is always the raw value rendered as
"<value>%" (an absent value renders as "undefined%"), and the "-"
fallback written in the source is unreachable: no input produces "-". -/
theorem avg_uptime_always_percent (item : MixNodeResponseItem) :
    (mixNodeResponseItemToMixnodeRowType item).avg_uptime =
      jsStringOfOptNum item.avg_uptime ++ "%" ∧
    (mixNodeResponseItemToMixnodeRowType item).avg_uptime ≠ "-" := by
  have h := append_percent_ne (jsStringOfOptNum item.avg_uptime)
  have h1 : (mixNodeResponseItemToMixnodeRowType item).avg_uptime =
      jsStringOfOptNum item.avg_uptime ++ "%" := by
    show jsOrStr (jsStringOfOptNum item.avg_uptime ++ "%") "-" = _
    simp [jsOrStr, h.1]
  exact ⟨h1, h1 ▸ h.2⟩

/-- C8: location, identity_key, host and layer pass a present value through
unchanged and default to the empty string when the nested field or object
is missing. -/
theorem optional_string_fields_default (item : MixNodeResponseItem) (c : String) :
    (mixNodeResponseItemToMixnodeRowType { item with location := none }).location = "" ∧
    (mixNodeResponseItemToMixnodeRowType { item with location := some ⟨none⟩ }).location = "" ∧
    (mixNodeResponseItemToMixnodeRowType { item with location := some ⟨some c⟩ }).location = c ∧
    (mixNodeResponseItemToMixnodeRowType
        { item with mix_node := { item.mix_node with identity_key := none } }).identity_key = "" ∧
    (mixNodeResponseItemToMixnodeRowType
        { item with mix_node := { item.mix_node with identity_key := some c } }).identity_key = c ∧
    (mixNodeResponseItemToMixnodeRowType
        { item with mix_node := { item.mix_node with host := none } }).host = "" ∧
    (mixNodeResponseItemToMixnodeRowType
        { item with mix_node := { item.mix_node with host := some c } }).host = c ∧
    (mixNodeResponseItemToMixnodeRowType { item with layer := none }).layer = "" ∧
    (mixNodeResponseItemToMixnodeRowType { item with layer := some c }).layer = c := by
  have hc : jsOrEmptyStr (some c) = c := by
    by_cases h : c = "" <;> simp [jsOrEmptyStr, h]
  exact ⟨rfl, rfl, hc, rfl, hc, rfl, hc, rfl, hc⟩

/-- C9: when both amount strings parse to the number 0, totalBond is 0, the
0/0 division yields NaN, and the self_percentage field is the literal
string "NaN". -/
theorem self_percentage_zero_bond_nan (item : MixNodeResponseItem)
    (hp : jsNumber item.pledge_amount.amount = JSNum.fin 0)
    (hd : jsNumber item.total_delegation.amount = JSNum.fin 0) :
    (mixNodeResponseItemToMixnodeRowType item).self_percentage = "NaN" := by
  show (((jsOrNum (jsNumber item.pledge_amount.amount) (JSNum.fin 0)).mul (JSNum.fin 100)).div
      ((jsOrNum (jsNumber item.pledge_amount.amount) (JSNum.fin 0)).add
        (jsOrNum (jsNumber item.total_delegation.amount) (JSNum.fin 0)))).toFixed2 = "NaN"
  rw [hp, hd]
  with_unfolding_all rfl

/-- Witness for C9 at a record with pledge "0" and delegation "0". -/
theorem self_percentage_zero_bond_nan_witness :
    jsNumber "0" = JSNum.fin 0 ∧
    (mixNodeResponseItemToMixnodeRowType zeroAmountsItem).self_percentage = "NaN" :=
  ⟨by with_unfolding_all rfl,
   self_percentage_zero_bond_nan zeroAmountsItem
     (by with_unfolding_all rfl) (by with_unfolding_all rfl)⟩

/-- C10: a raw stake saturation equal to the number 0 renders as "-" and
not as "0.00 %": the truthy fallback replaces 0 by the empty string before
the typeof test. -/
theorem stake_saturation_zero_dash (item : MixNodeResponseItem) :
    (mixNodeResponseItemToMixnodeRowType
        { item with stake_saturation := some (JSNum.fin 0) }).stake_saturation = "-" ∧
    (mixNodeResponseItemToMixnodeRowType
        { item with stake_saturation := some (JSNum.fin 0) }).stake_saturation ≠ "0.00 %" := by
  refine ⟨rfl, ?_⟩
  show ("-" : String) ≠ "0.00 %"
  decide
